import Mathlib

/-!
Verification of the acceptance-test configuration module
(`source_acceptance_test/config.py`).

The module is a pydantic-v1 schema: raw parsed documents (mappings of
mappings, as produced by a YAML/JSON loader) are validated into typed
configuration values.  We embed raw documents as a JSON-like value type,
Python `dict`s as ordered association lists, and each pydantic model's
construction as a function from a raw object to `Except String <model>`,
mirroring the source's field declarations, defaults, `extra = "forbid"`
settings, validators and their order.
-/

set_option autoImplicit false

namespace SourceAcceptanceTest

/-- A raw document value, as produced by parsing YAML/JSON.  Objects keep
insertion order, like Python dicts. -/
inductive JValue where
  | null
  | bool (b : Bool)
  | str (s : String)
  | int (n : Int)
  | arr (xs : List JValue)
  | obj (fields : List (String × JValue))

/-- A raw object / Python dict: ordered key-value pairs. -/
abbrev Doc := List (String × JValue)

/-- Python `d[k]` / `k in d` style lookup: first entry with the given key. -/
def jlookup : Doc → String → Option JValue
  | [], _ => none
  | p :: rest, key => if p.1 = key then some p.2 else jlookup rest key

/-- The keys of a raw object, in order. -/
def dictKeys (d : Doc) : List String := d.map Prod.fst

/-- Python `d.pop(k)`: remove the entry with the given key.  (Real dicts
have unique keys; we remove every occurrence.) -/
def dictPop : Doc → String → Doc
  | [], _ => []
  | p :: rest, k => if p.1 = k then dictPop rest k else p :: dictPop rest k

/-- Python `d[k] = v`: replace the value at an existing key in place,
otherwise append at the end. -/
def dictSet : Doc → String → JValue → Doc
  | [], k, v => [(k, v)]
  | p :: rest, k, v => if p.1 = k then (k, v) :: rest else p :: dictSet rest k v

/-! ### The semantic-version regex

`SEMVER_REGEX = r"(0|(?:[1-9]\d*))(?:\.(0|(?:[1-9]\d*))(?:\.(0|(?:[1-9]\d*)))?(?:\-([\w][\w\.\-_]*))?)?"`

`semverLangChars` decides full membership in the regex's language;
`reMatchSemver` embeds Python's `re.match` (used by pydantic's
`Field(regex=...)`), which succeeds exactly when some prefix of the string,
starting at position 0, is in the language. -/

/-- `\w` of the regex, for ASCII input: letters, digits, underscore. -/
def isWordChar (c : Char) : Bool := c.isAlphanum || c == '_'

/-- The character class `[\w\.\-_]` of the prerelease tail. -/
def isPrereleaseChar (c : Char) : Bool := isWordChar c || c == '.' || c == '-' || c == '_'

/-- Consume one numeric component `(0|(?:[1-9]\d*))`; return the rest. -/
def parseNum : List Char → Option (List Char)
  | [] => none
  | c :: rest =>
    if c == '0' then some rest
    else if c.isDigit then some (rest.dropWhile Char.isDigit)
    else none

/-- The prerelease part `[\w][\w\.\-_]*`, consuming the whole remainder. -/
def parsePrerelease : List Char → Bool
  | [] => false
  | c :: rest => isWordChar c && rest.all isPrereleaseChar

/-- Full membership in the language of `SEMVER_REGEX`:
`major[.minor[.patch]?[-prerelease]?]?` (patch and prerelease are
independently optional after the minor component). -/
def semverLangChars (cs : List Char) : Bool :=
  match parseNum cs with
  | none => false
  | some rest =>
    match rest with
    | [] => true
    | '.' :: r2 =>
      match parseNum r2 with
      | none => false
      | some r3 =>
        match r3 with
        | '.' :: r4 =>
          match parseNum r4 with
          | none => false
          | some r5 =>
            match r5 with
            | [] => true
            | '-' :: r6 => parsePrerelease r6
            | _ => false
        | [] => true
        | '-' :: r6 => parsePrerelease r6
        | _ => false
    | _ => false

/-- Full membership in the regex language, on strings. -/
def semverLang (s : String) : Bool := semverLangChars s.data

/-- Python `re.match(SEMVER_REGEX, s) is not None`: some prefix of `s`
(anchored at the start, not at the end) is in the regex language. -/
def reMatchSemver (s : String) : Bool :=
  (List.range (s.data.length + 1)).any fun n => semverLangChars (s.data.take n)

/-! ### Shared field parsers (pydantic field semantics for the types used) -/

/-- pydantic `extra = "forbid"`: reject the first key outside the declared
field set.  Models the `Extra.forbid` check of every `BaseConfig` subclass. -/
def checkExtraKeys (raw : Doc) (allowed : List String) : Except String Unit :=
  match raw.find? (fun p => !(allowed.contains p.1)) with
  | some p => .error ("extra fields not permitted: " ++ p.1)
  | none => .ok ()

/-- A required-or-defaulted `str` field. -/
def parseStrField : JValue → Except String String
  | .str s => .ok s
  | _ => .error "str type expected"

/-- A `str` field with a default. -/
def getStr (raw : Doc) (key dflt : String) : Except String String :=
  match jlookup raw key with
  | none => .ok dflt
  | some v => parseStrField v

/-- An `Optional[str]` field with default `None`. -/
def getOptStr (raw : Doc) (key : String) : Except String (Option String) :=
  match jlookup raw key with
  | none => .ok none
  | some .null => .ok none
  | some (.str s) => .ok (some s)
  | some _ => .error "str type expected"

/-- A `bool` field with a default. -/
def getBool (raw : Doc) (key : String) (dflt : Bool) : Except String Bool :=
  match jlookup raw key with
  | none => .ok dflt
  | some (.bool b) => .ok b
  | some _ => .error "value could not be parsed to a boolean"

/-- `timeout_seconds: int = Field(default=None, ge=0)` — an implicitly
optional non-negative integer with default `None`. -/
def getTimeout (raw : Doc) : Except String (Option Int) :=
  match jlookup raw "timeout_seconds" with
  | none => .ok none
  | some .null => .ok none
  | some (.int n) =>
    if 0 ≤ n then .ok (some n)
    else .error "ensure this value is greater than or equal to 0"
  | some _ => .error "value is not a valid integer"

/-- Elements of a `Set[str]` / `List[str]` field. -/
def parseStrList : List JValue → Except String (List String)
  | [] => .ok []
  | x :: xs =>
    match parseStrField x with
    | .error m => .error m
    | .ok s =>
      match parseStrList xs with
      | .error m => .error m
      | .ok rest => .ok (s :: rest)

/-- A `Set[str]` field with `default_factory=set`. -/
def getStrSet (raw : Doc) (key : String) : Except String (List String) :=
  match jlookup raw key with
  | none => .ok []
  | some (.arr xs) => parseStrList xs
  | some _ => .error "value is not a valid set"

/-- Values of a `Mapping[str, List[str]]` field. -/
def parseStrListMap : List (String × JValue) → Except String (List (String × List String))
  | [] => .ok []
  | p :: rest =>
    match p.2 with
    | .arr xs =>
      match parseStrList xs with
      | .error m => .error m
      | .ok l =>
        match parseStrListMap rest with
        | .error m => .error m
        | .ok r => .ok ((p.1, l) :: r)
    | _ => .error "value is not a valid list"

/-- An `Optional[Mapping[str, List[str]]]` field with default `None`. -/
def getOptStrListMap (raw : Doc) (key : String) : Except String (Option (List (String × List String))) :=
  match jlookup raw key with
  | none => .ok none
  | some .null => .ok none
  | some (.obj m) =>
    match parseStrListMap m with
    | .error e => .error e
    | .ok l => .ok (some l)
  | some _ => .error "value is not a valid dict"

/-! ### BackwardCompatibilityTestsConfig -/

structure BackwardCompatibilityTestsConfig where
  previous_connector_version : String
  disable_for_version : Option String

def backwardCompatAllowedKeys : List String :=
  ["previous_connector_version", "disable_for_version"]

/-- `Field(regex=SEMVER_REGEX)`: pydantic checks supplied string values with
`re.match` against the pattern. -/
def semverCheck (s : String) : Except String String :=
  if reMatchSemver s then .ok s else .error ("string does not match regex: " ++ s)

/-- Construction of `BackwardCompatibilityTestsConfig`.  Defaults
(`"latest"`, `None`) are not validated against the regex — pydantic v1 does
not validate defaults. -/
def mkBackwardCompatibilityTestsConfig (raw : Doc) : Except String BackwardCompatibilityTestsConfig :=
  match checkExtraKeys raw backwardCompatAllowedKeys with
  | .error m => .error m
  | .ok _ =>
    match jlookup raw "previous_connector_version" with
    | some v =>
      (match parseStrField v with
       | .error m => .error m
       | .ok s =>
         match semverCheck s with
         | .error m => .error m
         | .ok pcv => finishDisable raw pcv)
    | none => finishDisable raw "latest"
where
  finishDisable (raw : Doc) (pcv : String) : Except String BackwardCompatibilityTestsConfig :=
    match jlookup raw "disable_for_version" with
    | none => .ok ⟨pcv, none⟩
    | some .null => .ok ⟨pcv, none⟩
    | some v =>
      match parseStrField v with
      | .error m => .error m
      | .ok s =>
        match semverCheck s with
        | .error m => .error m
        | .ok dfv => .ok ⟨pcv, some dfv⟩

/-- Nested `backward_compatibility_tests_config` field with default
`BackwardCompatibilityTestsConfig()`. -/
def getBCConfig (raw : Doc) : Except String BackwardCompatibilityTestsConfig :=
  match jlookup raw "backward_compatibility_tests_config" with
  | none => .ok ⟨"latest", none⟩
  | some (.obj m) => mkBackwardCompatibilityTestsConfig m
  | some _ => .error "value is not a valid dict"

/-! ### ExpectedRecordsConfig -/

structure ExpectedRecordsConfig where
  path : String
  extra_fields : Bool
  exact_order : Bool
  extra_records : Bool

def expectedRecordsAllowedKeys : List String :=
  ["path", "extra_fields", "exact_order", "extra_records"]

/-- `@validator("exact_order", always=True)`: fails when `extra_fields` is
on and `exact_order` is off. -/
def validate_exact_order (extra_fields exact_order : Bool) : Except String Bool :=
  if extra_fields && !exact_order then
    .error "exact_order must be on if extra_fields enabled"
  else .ok exact_order

/-- `@validator("extra_records", always=True)`: fails when `extra_fields`
is on and `extra_records` is on. -/
def validate_extra_records (extra_fields extra_records : Bool) : Except String Bool :=
  if extra_fields && extra_records then
    .error "extra_records must be off if extra_fields enabled"
  else .ok extra_records

/-- Construction of `ExpectedRecordsConfig`: fields in declaration order
(`path`, `extra_fields`, `exact_order`, `extra_records`), each validator
running right after its field — so the `exact_order` rule fires before the
`extra_records` field is even read. -/
def mkExpectedRecordsConfig (raw : Doc) : Except String ExpectedRecordsConfig :=
  match checkExtraKeys raw expectedRecordsAllowedKeys with
  | .error m => .error m
  | .ok _ =>
    match jlookup raw "path" with
    | none => .error "field required"
    | some pv =>
      match parseStrField pv with
      | .error m => .error m
      | .ok path =>
        match getBool raw "extra_fields" false with
        | .error m => .error m
        | .ok ef =>
          match getBool raw "exact_order" false with
          | .error m => .error m
          | .ok eo0 =>
            match validate_exact_order ef eo0 with
            | .error m => .error m
            | .ok eo =>
              match getBool raw "extra_records" true with
              | .error m => .error m
              | .ok er0 =>
                match validate_extra_records ef er0 with
                | .error m => .error m
                | .ok er => .ok ⟨path, ef, eo, er⟩

/-! ### Per-category test configs -/

structure SpecTestConfig where
  spec_path : String
  config_path : String
  timeout_seconds : Option Int
  backward_compatibility_tests_config : BackwardCompatibilityTestsConfig

def specAllowedKeys : List String :=
  ["spec_path", "config_path", "timeout_seconds", "backward_compatibility_tests_config"]

def mkSpecTestConfig (raw : Doc) : Except String SpecTestConfig :=
  match checkExtraKeys raw specAllowedKeys with
  | .error m => .error m
  | .ok _ =>
    match getStr raw "spec_path" "secrets/spec.json" with
    | .error m => .error m
    | .ok sp =>
      match getStr raw "config_path" "secrets/config.json" with
      | .error m => .error m
      | .ok cp =>
        match getTimeout raw with
        | .error m => .error m
        | .ok ts =>
          match getBCConfig raw with
          | .error m => .error m
          | .ok bc => .ok ⟨sp, cp, ts, bc⟩

inductive ConnectionStatus where
  | Succeed
  | Failed
  | Exception

structure ConnectionTestConfig where
  config_path : String
  status : ConnectionStatus
  timeout_seconds : Option Int

def connectionAllowedKeys : List String := ["config_path", "status", "timeout_seconds"]

/-- The `Status` enum of `ConnectionTestConfig`. -/
def parseStatus : JValue → Except String ConnectionStatus
  | .str "succeed" => .ok .Succeed
  | .str "failed" => .ok .Failed
  | .str "exception" => .ok .Exception
  | _ => .error "value is not a valid enumeration member"

def mkConnectionTestConfig (raw : Doc) : Except String ConnectionTestConfig :=
  match checkExtraKeys raw connectionAllowedKeys with
  | .error m => .error m
  | .ok _ =>
    match getStr raw "config_path" "secrets/config.json" with
    | .error m => .error m
    | .ok cp =>
      match (match jlookup raw "status" with
             | none => Except.ok ConnectionStatus.Succeed
             | some v => parseStatus v) with
      | .error m => .error m
      | .ok st =>
        match getTimeout raw with
        | .error m => .error m
        | .ok ts => .ok ⟨cp, st, ts⟩

structure DiscoveryTestConfig where
  config_path : String
  timeout_seconds : Option Int
  backward_compatibility_tests_config : BackwardCompatibilityTestsConfig

def discoveryAllowedKeys : List String :=
  ["config_path", "timeout_seconds", "backward_compatibility_tests_config"]

def mkDiscoveryTestConfig (raw : Doc) : Except String DiscoveryTestConfig :=
  match checkExtraKeys raw discoveryAllowedKeys with
  | .error m => .error m
  | .ok _ =>
    match getStr raw "config_path" "secrets/config.json" with
    | .error m => .error m
    | .ok cp =>
      match getTimeout raw with
      | .error m => .error m
      | .ok ts =>
        match getBCConfig raw with
        | .error m => .error m
        | .ok bc => .ok ⟨cp, ts, bc⟩

structure BasicReadTestConfig where
  config_path : String
  configured_catalog_path : Option String
  empty_streams : List String
  expect_records : Option ExpectedRecordsConfig
  validate_schema : Bool
  validate_data_points : Bool
  expect_trace_message_on_failure : Bool
  timeout_seconds : Option Int

def basicReadAllowedKeys : List String :=
  ["config_path", "configured_catalog_path", "empty_streams", "expect_records",
   "validate_schema", "validate_data_points", "expect_trace_message_on_failure",
   "timeout_seconds"]

def mkBasicReadTestConfig (raw : Doc) : Except String BasicReadTestConfig :=
  match checkExtraKeys raw basicReadAllowedKeys with
  | .error m => .error m
  | .ok _ =>
    match getStr raw "config_path" "secrets/config.json" with
    | .error m => .error m
    | .ok cp =>
      match getOptStr raw "configured_catalog_path" with
      | .error m => .error m
      | .ok cc =>
        match getStrSet raw "empty_streams" with
        | .error m => .error m
        | .ok es =>
          match (match jlookup raw "expect_records" with
                 | none => Except.ok none
                 | some .null => Except.ok none
                 | some (.obj m) =>
                   (match mkExpectedRecordsConfig m with
                    | .error e => Except.error e
                    | .ok r => Except.ok (some r))
                 | some _ => Except.error "value is not a valid dict") with
          | .error m => .error m
          | .ok er =>
            match getBool raw "validate_schema" true with
            | .error m => .error m
            | .ok vs =>
              match getBool raw "validate_data_points" false with
              | .error m => .error m
              | .ok vdp =>
                match getBool raw "expect_trace_message_on_failure" true with
                | .error m => .error m
                | .ok etm =>
                  match getTimeout raw with
                  | .error m => .error m
                  | .ok ts => .ok ⟨cp, cc, es, er, vs, vdp, etm, ts⟩

structure FullRefreshConfig where
  config_path : String
  configured_catalog_path : Option String
  timeout_seconds : Option Int
  ignored_fields : Option (List (String × List String))

def fullRefreshAllowedKeys : List String :=
  ["config_path", "configured_catalog_path", "timeout_seconds", "ignored_fields"]

def mkFullRefreshConfig (raw : Doc) : Except String FullRefreshConfig :=
  match checkExtraKeys raw fullRefreshAllowedKeys with
  | .error m => .error m
  | .ok _ =>
    match getStr raw "config_path" "secrets/config.json" with
    | .error m => .error m
    | .ok cp =>
      match getOptStr raw "configured_catalog_path" with
      | .error m => .error m
      | .ok cc =>
        match getTimeout raw with
        | .error m => .error m
        | .ok ts =>
          match getOptStrListMap raw "ignored_fields" with
          | .error m => .error m
          | .ok ign => .ok ⟨cp, cc, ts, ign⟩

structure IncrementalConfig where
  config_path : String
  configured_catalog_path : Option String
  cursor_paths : Option (List (String × List String))
  future_state_path : Option String
  timeout_seconds : Option Int
  threshold_days : Int
  skip_comprehensive_incremental_tests : Option Bool

def incrementalAllowedKeys : List String :=
  ["config_path", "configured_catalog_path", "cursor_paths", "future_state_path",
   "timeout_seconds", "threshold_days", "skip_comprehensive_incremental_tests"]

/-- `threshold_days: int = Field(default=0, ge=0)`. -/
def getThresholdDays (raw : Doc) : Except String Int :=
  match jlookup raw "threshold_days" with
  | none => .ok 0
  | some (.int n) =>
    if 0 ≤ n then .ok n
    else .error "ensure this value is greater than or equal to 0"
  | some _ => .error "value is not a valid integer"

def mkIncrementalConfig (raw : Doc) : Except String IncrementalConfig :=
  match checkExtraKeys raw incrementalAllowedKeys with
  | .error m => .error m
  | .ok _ =>
    match getStr raw "config_path" "secrets/config.json" with
    | .error m => .error m
    | .ok cp =>
      match getOptStr raw "configured_catalog_path" with
      | .error m => .error m
      | .ok cc =>
        match getOptStrListMap raw "cursor_paths" with
        | .error m => .error m
        | .ok cps =>
          match getOptStr raw "future_state_path" with
          | .error m => .error m
          | .ok fsp =>
            match getTimeout raw with
            | .error m => .error m
            | .ok ts =>
              match getThresholdDays raw with
              | .error m => .error m
              | .ok td =>
                match (match jlookup raw "skip_comprehensive_incremental_tests" with
                       | none => Except.ok (some false)
                       | some .null => Except.ok none
                       | some (.bool b) => Except.ok (some b)
                       | some _ => Except.error "value could not be parsed to a boolean") with
                | .error m => .error m
                | .ok sk => .ok ⟨cp, cc, cps, fsp, ts, td, sk⟩

/-! ### GenericTestConfig — the per-category wrapper

`GenericTestConfig(GenericModel, Generic[TestConfigT])` declares
`bypass_reason: Optional[str]` and `tests: Optional[List[TestConfigT]]`, and
a validator on `tests`.  It does *not* extend `BaseConfig`, so it keeps
pydantic's default behavior for undeclared keys: they are silently ignored
(no `extra = "forbid"`). -/

structure GenericTestConfig (T : Type) where
  bypass_reason : Option String
  tests : Option (List T)

/-- Elementwise validation of the `tests` list. -/
def parseItems {T : Type} (parse : JValue → Except String T) : List JValue → Except String (List T)
  | [] => .ok []
  | x :: xs =>
    match parse x with
    | .error m => .error m
    | .ok t =>
      match parseItems parse xs with
      | .error m => .error m
      | .ok ts => .ok (t :: ts)

/-- Python truthiness of `values.get("bypass_reason")`: a present,
non-empty string. -/
def truthyStr : Option String → Bool
  | none => false
  | some s => !(s == "")

/-- Python truthiness of `tests`: a present, non-empty list. -/
def truthyTests {T : Type} : Option (List T) → Bool
  | none => false
  | some l => !l.isEmpty

/-- The `bypass_reason: Optional[str]` field. -/
def parseBypassReason (raw : Doc) : Except String (Option String) :=
  match jlookup raw "bypass_reason" with
  | none => .ok none
  | some .null => .ok none
  | some (.str s) => .ok (some s)
  | some _ => .error "str type expected"

/-- The `tests: Optional[List[TestConfigT]]` field. -/
def parseTestsField {T : Type} (parse : JValue → Except String T) (raw : Doc) :
    Except String (Option (List T)) :=
  match jlookup raw "tests" with
  | none => .ok none
  | some .null => .ok none
  | some (.arr xs) =>
    match parseItems parse xs with
    | .error m => .error m
    | .ok ts => .ok (some ts)
  | some _ => .error "value is not a valid list"

/-- Construction of `GenericTestConfig[T]`: fields in declaration order,
then the `no_bypass_reason_when_tests_is_set` validator:
`if tests and values.get("bypass_reason"): raise`. -/
def mkGenericTestConfig {T : Type} (parse : JValue → Except String T) (raw : Doc) :
    Except String (GenericTestConfig T) :=
  match parseBypassReason raw with
  | .error m => .error m
  | .ok bypass =>
    match parseTestsField parse raw with
    | .error m => .error m
    | .ok tests =>
      if truthyTests tests && truthyStr bypass then
        .error "You cannot set a bypass_reason if tests are set."
      else
        .ok ⟨bypass, tests⟩

/-! ### AcceptanceTestConfigurations and the root Config -/

structure AcceptanceTestConfigurations where
  spec : Option (GenericTestConfig SpecTestConfig)
  connection : Option (GenericTestConfig ConnectionTestConfig)
  discovery : Option (GenericTestConfig DiscoveryTestConfig)
  basic_read : Option (GenericTestConfig BasicReadTestConfig)
  full_refresh : Option (GenericTestConfig FullRefreshConfig)
  incremental : Option (GenericTestConfig IncrementalConfig)

def acceptanceTestsAllowedKeys : List String :=
  ["spec", "connection", "discovery", "basic_read", "full_refresh", "incremental"]

/-- One optional category wrapper field: absent or `null` means the
category is not configured; an object is parsed as a `GenericTestConfig`
whose list items are parsed by the category's own model. -/
def getCategory {T : Type} (mk : Doc → Except String T) (raw : Doc) (key : String) :
    Except String (Option (GenericTestConfig T)) :=
  match jlookup raw key with
  | none => .ok none
  | some .null => .ok none
  | some (.obj m) =>
    match mkGenericTestConfig
        (fun v => match v with
                  | .obj o => mk o
                  | _ => .error "value is not a valid dict") m with
    | .error e => .error e
    | .ok c => .ok (some c)
  | some _ => .error "value is not a valid dict"

def mkAcceptanceTestConfigurations (raw : Doc) : Except String AcceptanceTestConfigurations :=
  match checkExtraKeys raw acceptanceTestsAllowedKeys with
  | .error m => .error m
  | .ok _ =>
    match getCategory mkSpecTestConfig raw "spec" with
    | .error m => .error m
    | .ok sp =>
      match getCategory mkConnectionTestConfig raw "connection" with
      | .error m => .error m
      | .ok co =>
        match getCategory mkDiscoveryTestConfig raw "discovery" with
        | .error m => .error m
        | .ok di =>
          match getCategory mkBasicReadTestConfig raw "basic_read" with
          | .error m => .error m
          | .ok br =>
            match getCategory mkFullRefreshConfig raw "full_refresh" with
            | .error m => .error m
            | .ok fr =>
              match getCategory mkIncrementalConfig raw "incremental" with
              | .error m => .error m
              | .ok inc => .ok ⟨sp, co, di, br, fr, inc⟩

inductive TestStrictnessLevel where
  | high
  | low

structure Config where
  connector_image : String
  acceptance_tests : AcceptanceTestConfigurations
  base_path : Option String
  test_strictness_level : Option TestStrictnessLevel

def rootAllowedKeys : List String :=
  ["connector_image", "acceptance_tests", "base_path", "test_strictness_level"]

/-- Field validation of the root `Config` model (runs after the `pre`
root validator `legacy_format_adapter`). -/
def validateConfigFields (raw : Doc) : Except String Config :=
  match checkExtraKeys raw rootAllowedKeys with
  | .error m => .error m
  | .ok _ =>
    match jlookup raw "connector_image" with
    | none => .error "field required"
    | some civ =>
      match parseStrField civ with
      | .error m => .error m
      | .ok ci =>
        match (match jlookup raw "acceptance_tests" with
               | none => Except.error "field required"
               | some (.obj m) => mkAcceptanceTestConfigurations m
               | some _ => Except.error "value is not a valid dict") with
        | .error m => .error m
        | .ok atc =>
          match getOptStr raw "base_path" with
          | .error m => .error m
          | .ok bp =>
            match (match jlookup raw "test_strictness_level" with
                   | none => Except.ok (some TestStrictnessLevel.low)
                   | some .null => Except.ok none
                   | some (.str "high") => Except.ok (some TestStrictnessLevel.high)
                   | some (.str "low") => Except.ok (some TestStrictnessLevel.low)
                   | some _ => Except.error "value is not a valid enumeration member") with
            | .error m => .error m
            | .ok tsl => .ok ⟨ci, atc, bp, tsl⟩

/-! ### Legacy detection, migration, and the pre-validation adapter -/

/-- Module-level toggle `ALLOW_LEGACY_CONFIG = True`. -/
def ALLOW_LEGACY_CONFIG : Bool := true

/-- `Config.is_legacy`: a configuration is legacy when a `tests` field
exists at its root level. -/
def is_legacy (config : Doc) : Bool := (dictKeys config).contains "tests"

/-- `Config.migrate_legacy_to_current_config`: pop the legacy `tests` key,
then set `acceptance_tests` to a fresh object mapping each category name to
`{"tests": <that category's list>}`.  Returns `none` when the `tests`
value is not an object (the Python code would raise on `.items()`). -/
def migrate_legacy_to_current_config (legacy_config : Doc) : Option Doc :=
  match jlookup legacy_config "tests" with
  | some (JValue.obj testEntries) =>
    some (dictSet (dictPop legacy_config "tests") "acceptance_tests"
      (JValue.obj (testEntries.map fun p => (p.1, JValue.obj [("tests", p.2)]))))
  | _ => none

/-- `Config.legacy_format_adapter`, the `pre` root validator.  The
`allowLegacy` parameter is the module-level `ALLOW_LEGACY_CONFIG` toggle
(equal to `true` in the source). -/
def legacy_format_adapter (allowLegacy : Bool) (values : Doc) : Option Doc :=
  if allowLegacy && is_legacy values then migrate_legacy_to_current_config values
  else some values

/-- Full construction of the root `Config` from a raw document: the `pre`
root validator first, then field validation. -/
def configConstruct (allowLegacy : Bool) (raw : Doc) : Except String Config :=
  match legacy_format_adapter allowLegacy raw with
  | none => .error "legacy migration failed"
  | some d => validateConfigFields d

/-! ### Dictionary lemmas -/

theorem jlookup_dictPop_self (d : Doc) (k : String) : jlookup (dictPop d k) k = none := by
  induction d with
  | nil => rfl
  | cons p rest ih =>
    show jlookup (if p.1 = k then dictPop rest k else p :: dictPop rest k) k = none
    by_cases hp : p.1 = k
    · rw [if_pos hp]; exact ih
    · rw [if_neg hp]
      show (if p.1 = k then some p.2 else jlookup (dictPop rest k) k) = none
      rw [if_neg hp, ih]

theorem jlookup_dictPop_ne (d : Doc) (k k' : String) (h : k' ≠ k) :
    jlookup (dictPop d k) k' = jlookup d k' := by
  induction d with
  | nil => rfl
  | cons p rest ih =>
    show jlookup (if p.1 = k then dictPop rest k else p :: dictPop rest k) k'
        = if p.1 = k' then some p.2 else jlookup rest k'
    by_cases hp : p.1 = k
    · rw [if_pos hp, if_neg (by rw [hp]; exact fun he => h he.symm), ih]
    · rw [if_neg hp]
      show (if p.1 = k' then some p.2 else jlookup (dictPop rest k) k') = _
      by_cases hq : p.1 = k'
      · rw [if_pos hq, if_pos hq]
      · rw [if_neg hq, if_neg hq, ih]

theorem jlookup_dictSet_self (d : Doc) (k : String) (v : JValue) :
    jlookup (dictSet d k v) k = some v := by
  induction d with
  | nil =>
    show (if k = k then some v else none) = some v
    rw [if_pos rfl]
  | cons p rest ih =>
    show jlookup (if p.1 = k then (k, v) :: rest else p :: dictSet rest k v) k = some v
    by_cases hp : p.1 = k
    · rw [if_pos hp]
      show (if k = k then some v else jlookup rest k) = some v
      rw [if_pos rfl]
    · rw [if_neg hp]
      show (if p.1 = k then some p.2 else jlookup (dictSet rest k v) k) = some v
      rw [if_neg hp, ih]

theorem jlookup_dictSet_ne (d : Doc) (k k' : String) (v : JValue) (h : k' ≠ k) :
    jlookup (dictSet d k v) k' = jlookup d k' := by
  have hkk : k ≠ k' := fun he => h he.symm
  induction d with
  | nil =>
    show (if k = k' then some v else none) = none
    rw [if_neg hkk]
  | cons p rest ih =>
    show jlookup (if p.1 = k then (k, v) :: rest else p :: dictSet rest k v) k'
        = if p.1 = k' then some p.2 else jlookup rest k'
    by_cases hp : p.1 = k
    · rw [if_pos hp]
      show (if k = k' then some v else jlookup rest k') = _
      rw [if_neg hkk, if_neg (by rw [hp]; exact fun he => h he.symm)]
    · rw [if_neg hp]
      show (if p.1 = k' then some p.2 else jlookup (dictSet rest k v) k') = _
      by_cases hq : p.1 = k'
      · rw [if_pos hq, if_pos hq]
      · rw [if_neg hq, if_neg hq, ih]

theorem contains_dictKeys_eq_isSome (d : Doc) (k : String) :
    (dictKeys d).contains k = (jlookup d k).isSome := by
  induction d with
  | nil => rfl
  | cons p rest ih =>
    show (p.1 :: dictKeys rest).contains k = (jlookup (p :: rest) k).isSome
    rw [List.contains_cons, jlookup]
    by_cases hp : p.1 = k
    · rw [if_pos hp, beq_iff_eq.mpr hp.symm, Bool.true_or]
      rfl
    · rw [if_neg hp, beq_eq_false_iff_ne.mpr (fun he => hp he.symm), Bool.false_or, ih]

theorem mem_dictKeys_of_jlookup {d : Doc} {k : String} {v : JValue}
    (h : jlookup d k = some v) : k ∈ dictKeys d := by
  induction d with
  | nil => simp [jlookup] at h
  | cons p rest ih =>
    by_cases hp : p.1 = k
    · simp [dictKeys, hp.symm]
    · rw [jlookup, if_neg hp] at h
      simp [dictKeys]
      right
      simpa [dictKeys] using ih h

theorem checkExtraKeys_fails {raw : Doc} {allowed : List String} {k : String}
    (hk : k ∈ dictKeys raw) (hna : allowed.contains k = false) :
    ∃ m, checkExtraKeys raw allowed = Except.error m := by
  obtain ⟨p, hpmem, hpk⟩ := List.mem_map.mp hk
  have hfind : raw.find? (fun p => !(allowed.contains p.1)) ≠ none := by
    intro hnone
    have hall := List.find?_eq_none.mp hnone p hpmem
    rw [hpk, hna] at hall
    simp at hall
  cases hf : raw.find? (fun p => !(allowed.contains p.1)) with
  | none => exact absurd hf hfind
  | some q =>
    refine ⟨"extra fields not permitted: " ++ q.1, ?_⟩
    unfold checkExtraKeys
    rw [hf]

theorem parseItems_length {T : Type} (parse : JValue → Except String T) :
    ∀ (l : List JValue) (ts : List T), parseItems parse l = Except.ok ts → ts.length = l.length
  | [], ts, h => by
    simp only [parseItems] at h
    cases h
    rfl
  | x :: xs, ts, h => by
    simp only [parseItems] at h
    cases hx : parse x with
    | error m => rw [hx] at h; cases h
    | ok t =>
      rw [hx] at h
      cases hxs : parseItems parse xs with
      | error m => rw [hxs] at h; cases h
      | ok ts2 =>
        rw [hxs] at h
        cases h
        simp [parseItems_length parse xs ts2 hxs]

/-! ### Unknown-key rejection lemmas (one per `extra = "forbid"` model) -/

theorem validateConfigFields_unknown_key (raw : Doc) (k : String)
    (hk : k ∈ dictKeys raw) (hna : rootAllowedKeys.contains k = false) :
    (validateConfigFields raw).isOk = false := by
  obtain ⟨m, hm⟩ := checkExtraKeys_fails hk hna
  unfold validateConfigFields
  rw [hm]
  rfl

theorem mkAcceptanceTestConfigurations_unknown_key (raw : Doc) (k : String)
    (hk : k ∈ dictKeys raw) (hna : acceptanceTestsAllowedKeys.contains k = false) :
    (mkAcceptanceTestConfigurations raw).isOk = false := by
  obtain ⟨m, hm⟩ := checkExtraKeys_fails hk hna
  unfold mkAcceptanceTestConfigurations
  rw [hm]
  rfl

theorem mkSpecTestConfig_unknown_key (raw : Doc) (k : String)
    (hk : k ∈ dictKeys raw) (hna : specAllowedKeys.contains k = false) :
    (mkSpecTestConfig raw).isOk = false := by
  obtain ⟨m, hm⟩ := checkExtraKeys_fails hk hna
  unfold mkSpecTestConfig
  rw [hm]
  rfl

theorem mkConnectionTestConfig_unknown_key (raw : Doc) (k : String)
    (hk : k ∈ dictKeys raw) (hna : connectionAllowedKeys.contains k = false) :
    (mkConnectionTestConfig raw).isOk = false := by
  obtain ⟨m, hm⟩ := checkExtraKeys_fails hk hna
  unfold mkConnectionTestConfig
  rw [hm]
  rfl

theorem mkDiscoveryTestConfig_unknown_key (raw : Doc) (k : String)
    (hk : k ∈ dictKeys raw) (hna : discoveryAllowedKeys.contains k = false) :
    (mkDiscoveryTestConfig raw).isOk = false := by
  obtain ⟨m, hm⟩ := checkExtraKeys_fails hk hna
  unfold mkDiscoveryTestConfig
  rw [hm]
  rfl

theorem mkBasicReadTestConfig_unknown_key (raw : Doc) (k : String)
    (hk : k ∈ dictKeys raw) (hna : basicReadAllowedKeys.contains k = false) :
    (mkBasicReadTestConfig raw).isOk = false := by
  obtain ⟨m, hm⟩ := checkExtraKeys_fails hk hna
  unfold mkBasicReadTestConfig
  rw [hm]
  rfl

theorem mkFullRefreshConfig_unknown_key (raw : Doc) (k : String)
    (hk : k ∈ dictKeys raw) (hna : fullRefreshAllowedKeys.contains k = false) :
    (mkFullRefreshConfig raw).isOk = false := by
  obtain ⟨m, hm⟩ := checkExtraKeys_fails hk hna
  unfold mkFullRefreshConfig
  rw [hm]
  rfl

theorem mkIncrementalConfig_unknown_key (raw : Doc) (k : String)
    (hk : k ∈ dictKeys raw) (hna : incrementalAllowedKeys.contains k = false) :
    (mkIncrementalConfig raw).isOk = false := by
  obtain ⟨m, hm⟩ := checkExtraKeys_fails hk hna
  unfold mkIncrementalConfig
  rw [hm]
  rfl

/-! ### Acceptance of the semantic-version fields -/

/-- Whether a supplied `previous_connector_version` string is accepted. -/
def bcAcceptsPrev (s : String) : Bool :=
  (mkBackwardCompatibilityTestsConfig [("previous_connector_version", JValue.str s)]).isOk

/-- Whether a supplied `disable_for_version` string is accepted. -/
def bcAcceptsDisable (s : String) : Bool :=
  (mkBackwardCompatibilityTestsConfig [("disable_for_version", JValue.str s)]).isOk

theorem mkBC_prev_eval (s : String) :
    mkBackwardCompatibilityTestsConfig [("previous_connector_version", JValue.str s)]
      = if reMatchSemver s then Except.ok ⟨s, none⟩
        else Except.error ("string does not match regex: " ++ s) := by
  have hkey : mkBackwardCompatibilityTestsConfig [("previous_connector_version", JValue.str s)]
      = match semverCheck s with
        | Except.error m => Except.error m
        | Except.ok pcv =>
          mkBackwardCompatibilityTestsConfig.finishDisable
            [("previous_connector_version", JValue.str s)] pcv := rfl
  rw [hkey]
  unfold semverCheck
  cases hr : reMatchSemver s
  · rfl
  · rfl

theorem mkBC_disable_eval (s : String) :
    mkBackwardCompatibilityTestsConfig [("disable_for_version", JValue.str s)]
      = if reMatchSemver s then Except.ok ⟨"latest", some s⟩
        else Except.error ("string does not match regex: " ++ s) := by
  have hkey : mkBackwardCompatibilityTestsConfig [("disable_for_version", JValue.str s)]
      = match semverCheck s with
        | Except.error m => Except.error m
        | Except.ok dfv =>
          (Except.ok ⟨"latest", some dfv⟩ : Except String BackwardCompatibilityTestsConfig) := rfl
  rw [hkey]
  unfold semverCheck
  cases hr : reMatchSemver s
  · rfl
  · rfl

theorem bcAcceptsPrev_eq (s : String) : bcAcceptsPrev s = reMatchSemver s := by
  unfold bcAcceptsPrev
  rw [mkBC_prev_eval]
  cases hr : reMatchSemver s
  · rfl
  · rfl

theorem bcAcceptsDisable_eq (s : String) : bcAcceptsDisable s = reMatchSemver s := by
  unfold bcAcceptsDisable
  rw [mkBC_disable_eval]
  cases hr : reMatchSemver s
  · rfl
  · rfl

theorem reMatchSemver_iff (s : String) :
    reMatchSemver s = true
      ↔ ∃ n, n ≤ s.data.length ∧ semverLangChars (s.data.take n) = true := by
  rw [reMatchSemver, List.any_eq_true]
  constructor
  · rintro ⟨n, hn, hl⟩
    exact ⟨n, Nat.lt_succ_iff.mp (List.mem_range.mp hn), hl⟩
  · rintro ⟨n, hn, hl⟩
    exact ⟨n, List.mem_range.mpr (Nat.lt_succ_iff.mpr hn), hl⟩

/-! ### Claim theorems -/

/-- C1: for every category wrapper (`GenericTestConfig`, over any item type
and item parser), construction from a raw mapping fails when both a
non-empty `tests` list and a (non-empty) `bypass_reason` string are
supplied; it succeeds when exactly one of the two is supplied, and also
when neither is supplied. -/
theorem c1_generic_wrapper_bypass_xor {T : Type} (parse : JValue → Except String T)
    (r : String) (l : List JValue) (ts : List T)
    (hr : (r == "") = false) (hl : l.isEmpty = false)
    (hts : parseItems parse l = Except.ok ts) :
    (mkGenericTestConfig parse [("bypass_reason", JValue.str r), ("tests", JValue.arr l)]).isOk = false
    ∧ (mkGenericTestConfig parse [("tests", JValue.arr l)]).isOk = true
    ∧ (mkGenericTestConfig parse [("bypass_reason", JValue.str r)]).isOk = true
    ∧ (mkGenericTestConfig parse ([] : Doc)).isOk = true := by
  have hts_ne : ts.isEmpty = false := by
    have hlen := parseItems_length parse l ts hts
    cases ts with
    | nil =>
      cases l with
      | nil => simp at hl
      | cons a t => simp at hlen
    | cons a t => rfl
  refine ⟨?_, ?_, rfl, rfl⟩
  · have hb : parseBypassReason [("bypass_reason", JValue.str r), ("tests", JValue.arr l)]
        = Except.ok (some r) := rfl
    have hjt : jlookup [("bypass_reason", JValue.str r), ("tests", JValue.arr l)] "tests"
        = some (JValue.arr l) := rfl
    simp [mkGenericTestConfig, parseTestsField, hb, hjt, hts, truthyTests, truthyStr, hts_ne, hr]
    rfl
  · have hb : parseBypassReason [("tests", JValue.arr l)] = Except.ok none := rfl
    have hjt : jlookup [("tests", JValue.arr l)] "tests" = some (JValue.arr l) := rfl
    simp [mkGenericTestConfig, parseTestsField, hb, hjt, hts, truthyStr]
    rfl

/-- Witness for C1 at a concrete wrapper: item type `JValue`, identity
item parser, reason `"because"`, a one-element tests list. -/
theorem c1_witness :
    (mkGenericTestConfig Except.ok [("bypass_reason", JValue.str "because"), ("tests", JValue.arr [JValue.null])]).isOk = false
    ∧ (mkGenericTestConfig Except.ok [("tests", JValue.arr [JValue.null])]).isOk = true
    ∧ (mkGenericTestConfig Except.ok [("bypass_reason", JValue.str "because")]).isOk = true
    ∧ (mkGenericTestConfig (Except.ok : JValue → Except String JValue) ([] : Doc)).isOk = true :=
  c1_generic_wrapper_bypass_xor Except.ok "because" [JValue.null] [JValue.null] rfl rfl rfl

/-- C2: for `ExpectedRecordsConfig` built from a raw mapping (any `path`
string), construction succeeds exactly when `extra_fields` is off, or both
`exact_order` is on and `extra_records` is off; and when `extra_fields` is
on with `exact_order` off, the reported error is the `exact_order` rule's —
that rule is checked before the `extra_records` rule. -/
theorem c2_expected_records_flag_rules (p : String) (ef eo er : Bool) :
    ((mkExpectedRecordsConfig [("path", JValue.str p), ("extra_fields", JValue.bool ef),
        ("exact_order", JValue.bool eo), ("extra_records", JValue.bool er)]).isOk
      = (!ef || (eo && !er)))
    ∧ mkExpectedRecordsConfig [("path", JValue.str p), ("extra_fields", JValue.bool true),
        ("exact_order", JValue.bool false), ("extra_records", JValue.bool er)]
      = Except.error "exact_order must be on if extra_fields enabled" := by
  constructor
  · cases ef <;> cases eo <;> cases er <;> rfl
  · cases er <;> rfl

/-- C9: a wrapper with a `bypass_reason` and `tests` explicitly supplied as
the empty list is accepted — the mutual-exclusion validator only fires for
a non-empty (truthy) tests list. -/
theorem c9_empty_tests_with_bypass_ok {T : Type} (parse : JValue → Except String T) (r : String) :
    (mkGenericTestConfig parse [("bypass_reason", JValue.str r), ("tests", JValue.arr [])]).isOk
      = true := rfl

/-- C10: omitting `previous_connector_version` yields the unvalidated
default `"latest"` (and no `disable_for_version`), while explicitly
supplying the string `"latest"` fails the semantic-version regex check. -/
theorem c10_latest_default_unvalidated :
    mkBackwardCompatibilityTestsConfig ([] : Doc)
      = Except.ok ⟨"latest", none⟩
    ∧ (mkBackwardCompatibilityTestsConfig [("previous_connector_version", JValue.str "latest")]).isOk
      = false := ⟨rfl, rfl⟩

/-- C3: for every legacy-shaped document (top-level `tests` key whose value
is an object of category lists), the migration removes `tests`, carries
every other top-level key over unchanged, and maps, under
`acceptance_tests`, each category name to exactly `{"tests": <list>}`; and
the documented concrete example migrates to exactly the documented result. -/
theorem c3_migration_shape (legacy : Doc) (m : List (String × JValue))
    (h : jlookup legacy "tests" = some (JValue.obj m)) :
    (∃ out, migrate_legacy_to_current_config legacy = some out
      ∧ jlookup out "tests" = none
      ∧ (∀ k, k ≠ "tests" → k ≠ "acceptance_tests" → jlookup out k = jlookup legacy k)
      ∧ jlookup out "acceptance_tests"
          = some (JValue.obj (m.map fun p => (p.1, JValue.obj [("tests", p.2)]))))
    ∧ migrate_legacy_to_current_config
        [("connector_image", JValue.str "x"),
         ("tests", JValue.obj [("spec", JValue.arr [JValue.obj [("spec_path", JValue.str "a")]])])]
      = some [("connector_image", JValue.str "x"),
              ("acceptance_tests", JValue.obj [("spec",
                JValue.obj [("tests", JValue.arr [JValue.obj [("spec_path", JValue.str "a")]])])])] := by
  constructor
  · refine ⟨dictSet (dictPop legacy "tests") "acceptance_tests"
        (JValue.obj (m.map fun p => (p.1, JValue.obj [("tests", p.2)]))), ?_, ?_, ?_, ?_⟩
    · unfold migrate_legacy_to_current_config
      rw [h]
    · rw [jlookup_dictSet_ne _ _ _ _ (by decide), jlookup_dictPop_self]
    · intro k hk1 hk2
      rw [jlookup_dictSet_ne _ _ _ _ hk2, jlookup_dictPop_ne _ _ _ hk1]
    · exact jlookup_dictSet_self _ _ _
  · rfl

/-- Witness for C3 at a concrete legacy document. -/
theorem c3_witness :
    (∃ out, migrate_legacy_to_current_config
        [("connector_image", JValue.str "y"), ("tests", JValue.obj [("discovery", JValue.arr [])])]
        = some out
      ∧ jlookup out "tests" = none
      ∧ (∀ k, k ≠ "tests" → k ≠ "acceptance_tests" →
          jlookup out k = jlookup
            [("connector_image", JValue.str "y"), ("tests", JValue.obj [("discovery", JValue.arr [])])] k)
      ∧ jlookup out "acceptance_tests"
          = some (JValue.obj [("discovery", JValue.obj [("tests", JValue.arr [])])]))
    ∧ migrate_legacy_to_current_config
        [("connector_image", JValue.str "x"),
         ("tests", JValue.obj [("spec", JValue.arr [JValue.obj [("spec_path", JValue.str "a")]])])]
      = some [("connector_image", JValue.str "x"),
              ("acceptance_tests", JValue.obj [("spec",
                JValue.obj [("tests", JValue.arr [JValue.obj [("spec_path", JValue.str "a")]])])])] :=
  c3_migration_shape
    [("connector_image", JValue.str "y"), ("tests", JValue.obj [("discovery", JValue.arr [])])]
    [("discovery", JValue.arr [])] rfl

/-- C4: a raw document is detected as legacy exactly when it has a
top-level `tests` key, and (with the legacy toggle enabled) the adapter
output is the migration result exactly on detected documents. -/
theorem c4_legacy_detection_iff (doc : Doc) :
    (is_legacy doc = true ↔ "tests" ∈ dictKeys doc)
    ∧ ((legacy_format_adapter true doc = migrate_legacy_to_current_config doc)
        ↔ is_legacy doc = true) := by
  constructor
  · exact List.elem_iff
  · constructor
    · intro had
      by_cases hleg : is_legacy doc = true
      · exact hleg
      · exfalso
        have hfalse : is_legacy doc = false := by
          cases hil : is_legacy doc
          · rfl
          · exact absurd hil hleg
        have h1 : legacy_format_adapter true doc = some doc := by
          unfold legacy_format_adapter
          rw [hfalse]
          rfl
        have hnone : jlookup doc "tests" = none := by
          have h3 := contains_dictKeys_eq_isSome doc "tests"
          rw [show (dictKeys doc).contains "tests" = is_legacy doc from rfl, hfalse] at h3
          cases hj : jlookup doc "tests" with
          | none => rfl
          | some v => rw [hj] at h3; cases h3
        have h2 : migrate_legacy_to_current_config doc = none := by
          unfold migrate_legacy_to_current_config
          rw [hnone]
        rw [h1, h2] at had
        cases had
    · intro hl
      unfold legacy_format_adapter
      rw [hl]
      rfl

/-- C8: on a document carrying both a top-level `tests` key and a top-level
`acceptance_tests` key, detection (which looks only at `tests`) fires, and
the migrated output's `acceptance_tests` value is built solely from the
legacy `tests` entries — the input's `acceptance_tests` value is discarded. -/
theorem c8_migration_overwrites_acceptance_tests (doc : Doc) (m : List (String × JValue))
    (prev : JValue)
    (ht : jlookup doc "tests" = some (JValue.obj m))
    (_ha : jlookup doc "acceptance_tests" = some prev) :
    is_legacy doc = true
    ∧ ∃ out, legacy_format_adapter true doc = some out
        ∧ jlookup out "acceptance_tests"
            = some (JValue.obj (m.map fun p => (p.1, JValue.obj [("tests", p.2)]))) := by
  have hleg : is_legacy doc = true := by
    show (dictKeys doc).contains "tests" = true
    rw [contains_dictKeys_eq_isSome, ht]
    rfl
  refine ⟨hleg, dictSet (dictPop doc "tests") "acceptance_tests"
      (JValue.obj (m.map fun p => (p.1, JValue.obj [("tests", p.2)]))), ?_, ?_⟩
  · unfold legacy_format_adapter
    rw [hleg]
    show migrate_legacy_to_current_config doc = _
    unfold migrate_legacy_to_current_config
    rw [ht]
  · exact jlookup_dictSet_self _ _ _

/-- Witness for C8 at a concrete document holding both keys. -/
theorem c8_witness :
    is_legacy [("acceptance_tests", JValue.str "old"), ("tests", JValue.obj [("spec", JValue.arr [])])] = true
    ∧ ∃ out, legacy_format_adapter true
        [("acceptance_tests", JValue.str "old"), ("tests", JValue.obj [("spec", JValue.arr [])])]
        = some out
      ∧ jlookup out "acceptance_tests"
          = some (JValue.obj [("spec", JValue.obj [("tests", JValue.arr [])])]) :=
  c8_migration_overwrites_acceptance_tests
    [("acceptance_tests", JValue.str "old"), ("tests", JValue.obj [("spec", JValue.arr [])])]
    [("spec", JValue.arr [])] (JValue.str "old") rfl rfl

/-- C5 counterexample: a document whose only unknown field sits inside a
category wrapper (`acceptance_tests.spec.unknown_field`) is accepted, not
rejected — `GenericTestConfig` does not forbid extra fields, so the claim
that an unknown field anywhere in the tree fails construction is false. -/
theorem c5_counterexample_wrapper_ignores_unknown :
    (configConstruct true
      [("connector_image", JValue.str "img"),
       ("acceptance_tests", JValue.obj
         [("spec", JValue.obj [("unknown_field", JValue.str "x")])])]).isOk = true := rfl

/-- C5 (amended): an unknown field at the root of the document, directly
under `acceptance_tests`, or inside a per-category config object makes
construction of that model fail with a schema error naming the field;
unknown fields inside a category wrapper are silently ignored (the wrapper
model does not forbid extras). -/
theorem c5_amended_unknown_field_rejection :
    (∀ raw k, k ∈ dictKeys raw → rootAllowedKeys.contains k = false →
      (validateConfigFields raw).isOk = false)
    ∧ (∀ raw k, k ∈ dictKeys raw → acceptanceTestsAllowedKeys.contains k = false →
      (mkAcceptanceTestConfigurations raw).isOk = false)
    ∧ (∀ raw k, k ∈ dictKeys raw → specAllowedKeys.contains k = false →
      (mkSpecTestConfig raw).isOk = false)
    ∧ (∀ raw k, k ∈ dictKeys raw → connectionAllowedKeys.contains k = false →
      (mkConnectionTestConfig raw).isOk = false)
    ∧ (∀ raw k, k ∈ dictKeys raw → discoveryAllowedKeys.contains k = false →
      (mkDiscoveryTestConfig raw).isOk = false)
    ∧ (∀ raw k, k ∈ dictKeys raw → basicReadAllowedKeys.contains k = false →
      (mkBasicReadTestConfig raw).isOk = false)
    ∧ (∀ raw k, k ∈ dictKeys raw → fullRefreshAllowedKeys.contains k = false →
      (mkFullRefreshConfig raw).isOk = false)
    ∧ (∀ raw k, k ∈ dictKeys raw → incrementalAllowedKeys.contains k = false →
      (mkIncrementalConfig raw).isOk = false) :=
  ⟨validateConfigFields_unknown_key, mkAcceptanceTestConfigurations_unknown_key,
   mkSpecTestConfig_unknown_key, mkConnectionTestConfig_unknown_key,
   mkDiscoveryTestConfig_unknown_key, mkBasicReadTestConfig_unknown_key,
   mkFullRefreshConfig_unknown_key, mkIncrementalConfig_unknown_key⟩

/-- Witness for amended C5: the single unknown key `"frobnicate"` is
rejected by the root model and by every per-category model. -/
theorem c5_amended_witness :
    (validateConfigFields [("frobnicate", JValue.null)]).isOk = false
    ∧ (mkAcceptanceTestConfigurations [("frobnicate", JValue.null)]).isOk = false
    ∧ (mkSpecTestConfig [("frobnicate", JValue.null)]).isOk = false
    ∧ (mkConnectionTestConfig [("frobnicate", JValue.null)]).isOk = false
    ∧ (mkDiscoveryTestConfig [("frobnicate", JValue.null)]).isOk = false
    ∧ (mkBasicReadTestConfig [("frobnicate", JValue.null)]).isOk = false
    ∧ (mkFullRefreshConfig [("frobnicate", JValue.null)]).isOk = false
    ∧ (mkIncrementalConfig [("frobnicate", JValue.null)]).isOk = false :=
  ⟨c5_amended_unknown_field_rejection.1 _ "frobnicate" (by decide) rfl,
   c5_amended_unknown_field_rejection.2.1 _ "frobnicate" (by decide) rfl,
   c5_amended_unknown_field_rejection.2.2.1 _ "frobnicate" (by decide) rfl,
   c5_amended_unknown_field_rejection.2.2.2.1 _ "frobnicate" (by decide) rfl,
   c5_amended_unknown_field_rejection.2.2.2.2.1 _ "frobnicate" (by decide) rfl,
   c5_amended_unknown_field_rejection.2.2.2.2.2.1 _ "frobnicate" (by decide) rfl,
   c5_amended_unknown_field_rejection.2.2.2.2.2.2.1 _ "frobnicate" (by decide) rfl,
   c5_amended_unknown_field_rejection.2.2.2.2.2.2.2 _ "frobnicate" (by decide) rfl⟩

/-- C6 counterexample: `"1.2.3.4"` lies outside the semantic-version
grammar (no full regex match), yet it is accepted for
`previous_connector_version` — pydantic checks the regex with `re.match`,
which is anchored only at the start, and the prefix `"1.2.3"` matches. -/
theorem c6_counterexample_accepts_outside_grammar :
    bcAcceptsPrev "1.2.3.4" = true ∧ semverLang "1.2.3.4" = false := ⟨rfl, rfl⟩

/-- C6 (amended): a string supplied to `previous_connector_version` or
`disable_for_version` is accepted if and only if some prefix of it,
anchored at position 0, lies in the semantic-version regex language; in
particular `"1.2.3-rc1"` is accepted and `"v1.2"` is rejected, but strings
outside the grammar with a matching proper prefix (such as `"1.2.3.4"`)
are accepted as well. -/
theorem c6_amended_semver_prefix_acceptance :
    (∀ s, bcAcceptsPrev s = true
        ↔ ∃ n, n ≤ s.data.length ∧ semverLangChars (s.data.take n) = true)
    ∧ (∀ s, bcAcceptsDisable s = true
        ↔ ∃ n, n ≤ s.data.length ∧ semverLangChars (s.data.take n) = true)
    ∧ bcAcceptsPrev "1.2.3-rc1" = true
    ∧ bcAcceptsPrev "v1.2" = false
    ∧ bcAcceptsDisable "1.2.3-rc1" = true
    ∧ bcAcceptsDisable "v1.2" = false := by
  refine ⟨?_, ?_, rfl, rfl, rfl, rfl⟩
  · intro s
    rw [bcAcceptsPrev_eq]
    exact reMatchSemver_iff s
  · intro s
    rw [bcAcceptsDisable_eq]
    exact reMatchSemver_iff s

/-- C7: with the legacy toggle disabled the pre-validation adapter returns
every document unchanged, and a legacy-shaped document (top-level `tests`,
no `acceptance_tests`) then fails standard schema validation; with the
toggle enabled the adapter migrates it, the migrated document has an
`acceptance_tests` key and no `tests` key, and construction proceeds as
standard validation of the migrated document. -/
theorem c7_legacy_toggle_behavior (doc : Doc) (m : List (String × JValue))
    (ht : jlookup doc "tests" = some (JValue.obj m))
    (_ha : jlookup doc "acceptance_tests" = none) :
    (∀ v, legacy_format_adapter false v = some v)
    ∧ (configConstruct false doc).isOk = false
    ∧ ∃ d, legacy_format_adapter true doc = some d
        ∧ jlookup d "tests" = none
        ∧ (jlookup d "acceptance_tests").isSome = true
        ∧ configConstruct true doc = validateConfigFields d := by
  have hadapter : ∀ v, legacy_format_adapter false v = some v := fun v => rfl
  refine ⟨hadapter, ?_, ?_⟩
  · have h1 : configConstruct false doc = validateConfigFields doc := by
      unfold configConstruct
      rw [hadapter doc]
    rw [h1]
    exact validateConfigFields_unknown_key doc "tests" (mem_dictKeys_of_jlookup ht) rfl
  · have hleg : is_legacy doc = true := by
      show (dictKeys doc).contains "tests" = true
      rw [contains_dictKeys_eq_isSome, ht]
      rfl
    refine ⟨dictSet (dictPop doc "tests") "acceptance_tests"
        (JValue.obj (m.map fun p => (p.1, JValue.obj [("tests", p.2)]))), ?_, ?_, ?_, ?_⟩
    · unfold legacy_format_adapter
      rw [hleg]
      show migrate_legacy_to_current_config doc = _
      unfold migrate_legacy_to_current_config
      rw [ht]
    · rw [jlookup_dictSet_ne _ _ _ _ (by decide), jlookup_dictPop_self]
    · rw [jlookup_dictSet_self]
      rfl
    · unfold configConstruct legacy_format_adapter
      rw [hleg]
      show (match migrate_legacy_to_current_config doc with
            | none => (Except.error "legacy migration failed" : Except String Config)
            | some d => validateConfigFields d) = _
      unfold migrate_legacy_to_current_config
      rw [ht]

/-- Witness for C7 at the documented concrete legacy document. -/
theorem c7_witness :
    (∀ v, legacy_format_adapter false v = some v)
    ∧ (configConstruct false
        [("connector_image", JValue.str "x"),
         ("tests", JValue.obj [("spec", JValue.arr [JValue.obj [("spec_path", JValue.str "a")]])])]).isOk
        = false
    ∧ ∃ d, legacy_format_adapter true
        [("connector_image", JValue.str "x"),
         ("tests", JValue.obj [("spec", JValue.arr [JValue.obj [("spec_path", JValue.str "a")]])])]
        = some d
      ∧ jlookup d "tests" = none
      ∧ (jlookup d "acceptance_tests").isSome = true
      ∧ configConstruct true
          [("connector_image", JValue.str "x"),
           ("tests", JValue.obj [("spec", JValue.arr [JValue.obj [("spec_path", JValue.str "a")]])])]
          = validateConfigFields d :=
  c7_legacy_toggle_behavior
    [("connector_image", JValue.str "x"),
     ("tests", JValue.obj [("spec", JValue.arr [JValue.obj [("spec_path", JValue.str "a")]])])]
    [("spec", JValue.arr [JValue.obj [("spec_path", JValue.str "a")]])] rfl rfl

end SourceAcceptanceTest
